import Mathlib

/-
Shallow embedding of the sealab-schema-builder library
(src/schema_builder.js, src/schema_builder_item.js, src/schema_builder_guard.js).

JavaScript objects whose key order matters are modelled as association
lists over String keys with JS assignment semantics (overwrite in place,
append new keys at the end).  The opaque GraphQL context and resolver
definition payloads are type parameters Ctx / Defn.  Fallible operations
return the post-call state together with an optional error, because the
JS methods mutate `this` before throwing in some paths and the claims
talk about the state left behind by a failing call.
-/

/-- JS object property read: first binding for the key, if any
(models `obj[key]` / `obj.hasOwnProperty(key)` on string keys). -/
def objGet {V : Type} : List (String × V) → String → Option V
  | [], _ => none
  | (k', v) :: rest, k => if k' = k then some v else objGet rest k

/-- JS `hasOwnProperty`. -/
def objHas {V : Type} (m : List (String × V)) (k : String) : Bool :=
  (objGet m k).isSome

/-- JS object property write: overwrite the existing binding in place,
otherwise append the new key at the end (JS insertion-order semantics). -/
def objSet {V : Type} : List (String × V) → String → V → List (String × V)
  | [], k, v => [(k, v)]
  | (k', v') :: rest, k, v =>
      if k' = k then (k, v) :: rest else (k', v') :: objSet rest k v

/-- Helper for `String.prototype.split` with a one-character separator:
split a character list at every occurrence of the separator. -/
def splitCharsAux (c : Char) : List Char → List Char → List (List Char)
  | [], acc => [acc.reverse]
  | x :: xs, acc =>
      if x = c then acc.reverse :: splitCharsAux c xs []
      else splitCharsAux c xs (x :: acc)

/-- JS `str.split(sep)` for a single-character separator `sep`
(always returns at least one piece; `"".split(sep)` gives `[""]`). -/
def jsSplit (s : String) (c : Char) : List String :=
  (splitCharsAux c s.toList []).map String.mk

/-- Guard instance: the capability set `{id(), validate(context, extras)}`
of schema_builder_guard.js.  `validate` is the pure authorization
predicate supplied by the embedding application. -/
structure GuardInst (Ctx : Type) where
  id : String
  validate : Ctx → List String → Bool

/-- A value stored in a fragment's `guards` slot.  In correct usage this
is an array of guard-reference strings, but the JS code can also store a
plain string there (`addTypeDefs` passes the group in the guards
position), and iteration over a string yields its characters. -/
inductive GuardsVal where
  | arr (refs : List String)
  | str (s : String)
deriving DecidableEq

/-- JS `for (x of guards)`: an array yields its elements, a string
yields its characters as one-character strings. -/
def forOfGuards : GuardsVal → List String
  | .arr refs => refs
  | .str s => s.toList.map (fun c => String.mk [c])

/-- schema_builder_item.js: one contributed fragment. -/
structure SchemaBuilderItem (Defn : Type) where
  definition : Defn
  guards : GuardsVal
deriving DecidableEq

/-- A value passed in the `group` parameter position: JS `null`, a
string, or an array (the last arises from `addTypeDefs`' swapped
arguments). -/
inductive GroupVal where
  | jnull
  | str (s : String)
  | arr (xs : List String)
deriving DecidableEq

/-- JS string coercion of a group value when used as an object key or in
a template literal: `String(null) = "null"`, arrays join with commas. -/
def groupKey : GroupVal → String
  | .jnull => "null"
  | .str s => s
  | .arr xs => ",".intercalate xs

/-- The fixed entrypoint list from the SchemaBuilder constructor. -/
def entrypoints : List String := ["query", "mutation", "subscription"]

/-- The check `[].concat([null], this.entrypoints).indexOf(group) !== -1`:
strict equality finds `null` and the three entrypoint strings; an array
is never strictly equal to any of them. -/
def validGroup : GroupVal → Bool
  | .jnull => true
  | .str s => entrypoints.contains s
  | .arr _ => false

/-- lodash `_.startCase` restricted to the single-word lower-case group
names it is applied to here: capitalize the first character. -/
def startCase (s : String) : String :=
  match s.toList with
  | [] => ""
  | c :: rest => String.mk (c.toUpper :: rest)

/-- Result of `parseGuard`: guard id plus extra arguments. -/
structure ParsedGuard where
  id : String
  extras : List String
deriving DecidableEq

/-- schema_builder.js `parseGuard`: split on ":", the first piece is the
id; if a second piece exists it is split on "," into extras (pieces
after the second are ignored). -/
def parseGuard (guard : String) : ParsedGuard :=
  match jsSplit guard ':' with
  | [] => ⟨"", []⟩
  | [p0] => ⟨p0, []⟩
  | p0 :: p1 :: _ => ⟨p0, jsSplit p1 ','⟩

/-- Errors thrown by the add-operations. -/
inductive BuilderError where
  | invalidGroup (groupStr : String)
  | duplicateResolver (name : String)
deriving DecidableEq

/-- Failures raised inside `validateGuards`: unregistered guard id
(`Guard (id) not found`) or a failed validation (`GuardError`). -/
inductive GuardFailure where
  | guardNotFound (id : String)
  | guardError (id : String) (extras : List String)
deriving DecidableEq

/-- The SchemaBuilder state: resolver buckets (group key → name → item),
type-def buckets (group key → ordered items), the registered guard list
and the id-keyed guard instances.  The constructor pre-creates the
`"null"` type-def bucket. -/
structure SchemaBuilder (Ctx Defn : Type) where
  resolvers : List (String × List (String × SchemaBuilderItem Defn))
  typeDefs : List (String × List (SchemaBuilderItem String))
  guards : List (GuardInst Ctx)
  guardInstances : List (String × GuardInst Ctx)

/-- `new SchemaBuilder()`. -/
def SchemaBuilder.new {Ctx Defn : Type} : SchemaBuilder Ctx Defn :=
  ⟨[], [("null", [])], [], []⟩

/-- `registerGuards`: push each guard and store its instance keyed by its
id (a repeated id overwrites the instance in place).  Instantiating the
guard class is modelled by supplying the instance itself. -/
def registerGuards {Ctx Defn : Type} (b : SchemaBuilder Ctx Defn)
    (gs : List (GuardInst Ctx)) : SchemaBuilder Ctx Defn :=
  gs.foldl
    (fun b g =>
      { b with
        guards := b.guards ++ [g]
        guardInstances := objSet b.guardInstances g.id g })
    b

/-- `getGuardIds` = `Object.keys(this.guardInstances)`. -/
def getGuardIds {Ctx Defn : Type} (b : SchemaBuilder Ctx Defn) : List String :=
  b.guardInstances.map Prod.fst

/-- `validateGuards(guardIds, context)`: for each reference in order,
parse it, look the guard up (failing with GuardNotFound), call its
predicate, and stop at the first failure with a GuardError. -/
def validateGuards {Ctx Defn : Type} (b : SchemaBuilder Ctx Defn)
    (guardIds : List String) (ctx : Ctx) : Except GuardFailure Unit :=
  match guardIds with
  | [] => .ok ()
  | g :: rest =>
      let p := parseGuard g
      match objGet b.guardInstances p.id with
      | none => .error (.guardNotFound p.id)
      | some inst =>
          if inst.validate ctx p.extras then validateGuards b rest ctx
          else .error (.guardError p.id p.extras)

/-- `inGuardlist`: the parsed id occurs in the whitelist. -/
def inGuardlist (guard : String) (guardList : List String) : Bool :=
  guardList.contains (parseGuard guard).id

/-- `determineRunnableGuards`: wrap a non-array guards value into a
one-element list (`_.isArray` check), then keep, in order, the
references whose id is in the whitelist. -/
def determineRunnableGuards (gv : GuardsVal) (whitelist : List String) :
    List String :=
  let guardList := match gv with
    | .arr refs => refs
    | .str s => [s]
  guardList.filter (fun g => inGuardlist g whitelist)

/-- `addTypeDef(typeDef, guards = [], group = null)`.  Note the JS order
of effects: the bucket for the (stringified) group is created first,
then the group is validated (so a failing call still leaves an empty
bucket behind), and only then is the item appended. -/
def addTypeDef {Ctx Defn : Type} (b : SchemaBuilder Ctx Defn)
    (typeDef : String) (guards : GuardsVal) (group : GroupVal) :
    Option BuilderError × SchemaBuilder Ctx Defn :=
  let key := groupKey group
  let b1 :=
    if objHas b.typeDefs key then b
    else { b with typeDefs := objSet b.typeDefs key [] }
  if validGroup group = false then
    (some (.invalidGroup key), b1)
  else
    (none,
      { b1 with
        typeDefs :=
          objSet b1.typeDefs key
            ((objGet b1.typeDefs key).getD [] ++ [⟨typeDef, guards⟩]) })

/-- One element of the sequence handed to `addTypeDefs`: the caller
supplies a definition and optionally a guards array and a group name
(an absent field arrives as `undefined` in JS). -/
structure TypeDefInput where
  definition : String
  guards : Option (List String)
  group : Option String
deriving DecidableEq

/-- `addTypeDefs(typeDefs)` as the code actually behaves: the loop body
is `this.addTypeDef(typeDef.definition, typeDef.group, typeDef.guards)`,
so the element's `group` lands in the `guards` parameter and its
`guards` array lands in the `group` parameter.  An absent field arrives
as `undefined` and triggers the parameter default (`guards = []`,
`group = null`).  The first thrown error aborts the loop, keeping the
state mutated so far. -/
def addTypeDefs {Ctx Defn : Type} (b : SchemaBuilder Ctx Defn)
    (typeDefs : List TypeDefInput) :
    Option BuilderError × SchemaBuilder Ctx Defn :=
  match typeDefs with
  | [] => (none, b)
  | td :: rest =>
      let guardsArg : GuardsVal := match td.group with
        | none => .arr []
        | some s => .str s
      let groupArg : GroupVal := match td.guards with
        | none => .jnull
        | some refs => .arr refs
      match addTypeDef b td.definition guardsArg groupArg with
      | (some e, b') => (some e, b')
      | (none, b') => addTypeDefs b' rest

/-- Modelled from the spec: the bulk form as §4.2 of the specification
describes it — "iterate a caller-supplied sequence and delegate to the
singular form per element", i.e. `addTypeDef(definition, guards, group)`
with the element's own fields in the singular form's parameter order,
the first failing element aborting the bulk call and earlier elements
remaining in the store.  Used only to compare the code's `addTypeDefs`
against the spec's delegation contract. -/
def addTypeDefsSpecDelegation {Ctx Defn : Type} (b : SchemaBuilder Ctx Defn)
    (typeDefs : List TypeDefInput) :
    Option BuilderError × SchemaBuilder Ctx Defn :=
  match typeDefs with
  | [] => (none, b)
  | td :: rest =>
      let groupArg : GroupVal := match td.group with
        | none => .jnull
        | some s => .str s
      match addTypeDef b td.definition (.arr (td.guards.getD [])) groupArg with
      | (some e, b') => (some e, b')
      | (none, b') => addTypeDefsSpecDelegation b' rest

/-- `addResolver(resolverName, resolverDef, group, guards = [])`: ensure
the bucket, validate the group, reject a duplicate name in the bucket,
otherwise insert. -/
def addResolver {Ctx Defn : Type} (b : SchemaBuilder Ctx Defn)
    (resolverName : String) (resolverDef : Defn)
    (group : GroupVal) (guards : GuardsVal) :
    Option BuilderError × SchemaBuilder Ctx Defn :=
  let key := groupKey group
  let b1 :=
    if objHas b.resolvers key then b
    else { b with resolvers := objSet b.resolvers key [] }
  if validGroup group = false then
    (some (.invalidGroup key), b1)
  else
    let bucket := (objGet b1.resolvers key).getD []
    if (objGet bucket resolverName).isSome then
      (some (.duplicateResolver resolverName), b1)
    else
      (none,
        { b1 with
          resolvers :=
            objSet b1.resolvers key
              (objSet bucket resolverName ⟨resolverDef, guards⟩) })

/-- `addTypeResolver(resolverName, resolverDef, guards = [])` =
`addResolver(resolverName, resolverDef, null, guards)`. -/
def addTypeResolver {Ctx Defn : Type} (b : SchemaBuilder Ctx Defn)
    (resolverName : String) (resolverDef : Defn) (guards : GuardsVal) :
    Option BuilderError × SchemaBuilder Ctx Defn :=
  addResolver b resolverName resolverDef .jnull guards

/-- `addEntrypoint(name, group, typeDef, resolver, guards = [])`:
`addTypeDef` then `addResolver`; an error in the first call aborts
before the second, an error in the second leaves the first call's
mutation in place (no rollback). -/
def addEntrypoint {Ctx Defn : Type} (b : SchemaBuilder Ctx Defn)
    (name : String) (group : GroupVal) (typeDef : String)
    (resolver : Defn) (guards : GuardsVal) :
    Option BuilderError × SchemaBuilder Ctx Defn :=
  match addTypeDef b typeDef guards group with
  | (some e, b') => (some e, b')
  | (none, b') => addResolver b' name resolver group guards

/-- `addType(name, typeDef, resolver, guards = [])` =
`addEntrypoint(name, null, typeDef, resolver, guards)`. -/
def addType {Ctx Defn : Type} (b : SchemaBuilder Ctx Defn)
    (name : String) (typeDef : String) (resolver : Defn)
    (guards : GuardsVal) : Option BuilderError × SchemaBuilder Ctx Defn :=
  addEntrypoint b name .jnull typeDef resolver guards

/-- True when an `Except` computation succeeded (the generation loops
catch every thrown error and skip the fragment). -/
def exceptOk {ε α : Type} : Except ε α → Bool
  | .ok _ => true
  | .error _ => false

/-- Filter decision for a no-group type-def fragment: the code calls
`validateGuards(typeDef.guards, context)` on the raw guards value — the
whitelist is not consulted on this path. -/
def typeDefPassesNull {Ctx Defn : Type} (b : SchemaBuilder Ctx Defn)
    (ctx : Ctx) (td : SchemaBuilderItem String) : Bool :=
  exceptOk (validateGuards b (forOfGuards td.guards) ctx)

/-- Filter decision for a grouped type-def fragment:
`validateGuards(determineRunnableGuards(typeDef.guards, whitelist), ctx)`. -/
def typeDefPassesGroup {Ctx Defn : Type} (b : SchemaBuilder Ctx Defn)
    (ctx : Ctx) (wl : List String) (td : SchemaBuilderItem String) : Bool :=
  exceptOk (validateGuards b (determineRunnableGuards td.guards wl) ctx)

/-- The definitions of the no-group type-def fragments that survive the
guard filter, in registration order. -/
def survivingNullTypeDefs {Ctx Defn : Type} (b : SchemaBuilder Ctx Defn)
    (ctx : Ctx) : List String :=
  ((objGet b.typeDefs "null").getD []).filterMap
    (fun td => if typeDefPassesNull b ctx td then some td.definition else none)

/-- The definitions of group `g`'s type-def fragments that survive the
whitelist-intersected guard filter, in registration order. -/
def survivingGroupTypeDefs {Ctx Defn : Type} (b : SchemaBuilder Ctx Defn)
    (ctx : Ctx) (wl : List String) (g : String) : List String :=
  ((objGet b.typeDefs g).getD []).filterMap
    (fun td => if typeDefPassesGroup b ctx wl td then some td.definition else none)

/-- The template literal wrapping a group's surviving definitions,
whitespace reproduced exactly from the source. -/
def groupBlock (g : String) (defs : List String) : String :=
  "\n          type " ++ startCase g ++ " \x7b\n            "
    ++ "\n".intercalate defs ++ "\n          \x7d\n        "

/-- One iteration of the entrypoint loop of `generateTypeDefs`: skip the
group when its bucket is absent or empty (type-def buckets are real JS
arrays, so `.length === 0` is a live check here), otherwise append the
wrapped block. -/
def groupTypeDefStep {Ctx Defn : Type} (b : SchemaBuilder Ctx Defn)
    (ctx : Ctx) (wl : List String) (acc : List String) (g : String) :
    List String :=
  match objGet b.typeDefs g with
  | none => acc
  | some bucket =>
      if bucket.isEmpty then acc
      else acc ++ [groupBlock g (survivingGroupTypeDefs b ctx wl g)]

/-- `generateTypeDefs(context, guardWhitelist = null)`: default the
whitelist to all registered guard ids, filter the no-group bucket
(without the whitelist), then each entrypoint group in fixed order
(with the whitelist), and join everything with newlines. -/
def generateTypeDefs {Ctx Defn : Type} (b : SchemaBuilder Ctx Defn)
    (ctx : Ctx) (guardWhitelist : Option (List String)) : String :=
  let wl := guardWhitelist.getD (getGuardIds b)
  "\n".intercalate
    (entrypoints.foldl (groupTypeDefStep b ctx wl) (survivingNullTypeDefs b ctx))

/-- Filter decision for a no-group resolver fragment (raw guards value,
whitelist not consulted, mirroring the type-def no-group path). -/
def resolverPassesNull {Ctx Defn : Type} (b : SchemaBuilder Ctx Defn)
    (ctx : Ctx) (item : SchemaBuilderItem Defn) : Bool :=
  exceptOk (validateGuards b (forOfGuards item.guards) ctx)

/-- Filter decision for a grouped resolver fragment. -/
def resolverPassesGroup {Ctx Defn : Type} (b : SchemaBuilder Ctx Defn)
    (ctx : Ctx) (wl : List String) (item : SchemaBuilderItem Defn) : Bool :=
  exceptOk (validateGuards b (determineRunnableGuards item.guards wl) ctx)

/-- The surviving no-group resolver entries (name → definition), built
with JS property assignment.  An absent `"null"` bucket contributes
nothing, which coincides with folding over the empty list. -/
def survivingNullResolvers {Ctx Defn : Type} (b : SchemaBuilder Ctx Defn)
    (ctx : Ctx) : List (String × Defn) :=
  ((objGet b.resolvers "null").getD []).foldl
    (fun acc nv =>
      if resolverPassesNull b ctx nv.2 then objSet acc nv.1 nv.2.definition
      else acc)
    []

/-- The surviving resolver entries of group `g` (name → definition). -/
def survivingGroupResolvers {Ctx Defn : Type} (b : SchemaBuilder Ctx Defn)
    (ctx : Ctx) (wl : List String) (g : String) : List (String × Defn) :=
  ((objGet b.resolvers g).getD []).foldl
    (fun acc nv =>
      if resolverPassesGroup b ctx wl nv.2 then objSet acc nv.1 nv.2.definition
      else acc)
    []

/-- A value in the generated resolver mapping: a top-level resolver
definition, or a nested per-group mapping. -/
inductive ResolverOut (Defn : Type) where
  | leaf (d : Defn)
  | group (m : List (String × Defn))
deriving DecidableEq

/-- One iteration of the entrypoint loop of `generateResolvers`.  The
source's `this.resolvers[group].length === 0` test compares the
`length` property of a plain object — always `undefined`, never `0` —
so a group is skipped exactly when its bucket is absent; a present
bucket is always emitted, even when every fragment is filtered out. -/
def groupResolverStep {Ctx Defn : Type} (b : SchemaBuilder Ctx Defn)
    (ctx : Ctx) (wl : List String)
    (acc : List (String × ResolverOut Defn)) (g : String) :
    List (String × ResolverOut Defn) :=
  match objGet b.resolvers g with
  | none => acc
  | some _ =>
      objSet acc (startCase g) (.group (survivingGroupResolvers b ctx wl g))

/-- `generateResolvers(context, guardWhitelist = null)`: default the
whitelist, emit surviving no-group resolvers as top-level entries, then
one nested mapping per entrypoint group whose bucket exists. -/
def generateResolvers {Ctx Defn : Type} (b : SchemaBuilder Ctx Defn)
    (ctx : Ctx) (guardWhitelist : Option (List String)) :
    List (String × ResolverOut Defn) :=
  let wl := guardWhitelist.getD (getGuardIds b)
  entrypoints.foldl (groupResolverStep b ctx wl)
    ((survivingNullResolvers b ctx).map
      (fun nv => (nv.1, ResolverOut.leaf nv.2)))

/-- Reading back the key just written. -/
theorem objGet_objSet_self {V : Type} (m : List (String × V)) (k : String)
    (v : V) : objGet (objSet m k v) k = some v := by
  induction m with
  | nil => simp [objGet, objSet]
  | cons hd tl ih =>
      obtain ⟨k', v'⟩ := hd
      by_cases h : k' = k <;> simp [objGet, objSet, h, ih]

/-- Writing one key does not disturb reads of another. -/
theorem objGet_objSet_ne {V : Type} (m : List (String × V)) (k k' : String)
    (v : V) (h : k' ≠ k) : objGet (objSet m k' v) k = objGet m k := by
  induction m with
  | nil => simp [objGet, objSet, h]
  | cons hd tl ih =>
      obtain ⟨k₀, v₀⟩ := hd
      by_cases h₀ : k₀ = k' <;> by_cases h₁ : k₀ = k <;>
        simp_all [objGet, objSet]

/-- A written key is present. -/
theorem objHas_objSet_self {V : Type} (m : List (String × V)) (k : String)
    (v : V) : objHas (objSet m k v) k = true := by
  simp [objHas, objGet_objSet_self]

/-- Presence of other keys is unchanged by a write. -/
theorem objHas_objSet_ne {V : Type} (m : List (String × V)) (k k' : String)
    (v : V) (h : k' ≠ k) : objHas (objSet m k' v) k = objHas m k := by
  simp [objHas, objGet_objSet_ne m k k' v h]

/-- An absent key reads as `none`. -/
theorem objGet_eq_none_of_objHas_false {V : Type} (m : List (String × V))
    (k : String) (h : objHas m k = false) : objGet m k = none := by
  simpa [objHas, Option.isSome_iff_exists] using h

/-- Re-keying the values of an association list does not change which
keys are present. -/
theorem objHas_map {α β : Type} (m : List (String × α)) (f : α → β)
    (k : String) :
    objHas (m.map (fun nv => (nv.1, f nv.2))) k = objHas m k := by
  induction m with
  | nil => rfl
  | cons hd tl ih =>
      by_cases h : hd.1 = k
      · simp [objHas, objGet, h]
      · simp only [List.map_cons]
        simpa [objHas, objGet, h] using ih

/-- A filtered insertion fold preserves a key that is already present. -/
theorem foldl_objSet_has_mono {α V : Type} (p : String × α → Bool)
    (f : String × α → V) (l : List (String × α))
    (init : List (String × V)) (n : String)
    (h : objHas init n = true) :
    objHas
      (l.foldl
        (fun acc nv => if p nv then objSet acc nv.1 (f nv) else acc) init)
      n = true := by
  induction l generalizing init with
  | nil => simpa using h
  | cons hd tl ih =>
      simp only [List.foldl_cons]
      by_cases hp : p hd = true
      · by_cases hk : hd.1 = n
        · exact ih _ (by simpa [hp, hk] using objHas_objSet_self init n (f hd))
        · exact ih _ (by simpa [hp, objHas_objSet_ne init n hd.1 (f hd) hk])
      · simp only [Bool.not_eq_true] at hp
        exact ih _ (by simpa [hp] using h)

/-- A filtered insertion fold makes present the name of any element of
the list that passes the filter. -/
theorem foldl_objSet_has_of_mem {α V : Type} (p : String × α → Bool)
    (f : String × α → V) (l : List (String × α))
    (init : List (String × V)) (n : String) (it : α)
    (hm : (n, it) ∈ l) (hp : p (n, it) = true) :
    objHas
      (l.foldl
        (fun acc nv => if p nv then objSet acc nv.1 (f nv) else acc) init)
      n = true := by
  induction l generalizing init with
  | nil => cases hm
  | cons hd tl ih =>
      simp only [List.foldl_cons]
      rcases List.mem_cons.mp hm with hm | hm
      · rw [← hm]
        exact foldl_objSet_has_mono p f tl _ n
          (by simpa [hp] using objHas_objSet_self init n (f (n, it)))
      · exact ih _ hm

/-- A filtered insertion fold over elements that all fail the filter
returns its accumulator unchanged. -/
theorem foldl_objSet_all_fail {α V : Type} (p : String × α → Bool)
    (f : String × α → V) (l : List (String × α))
    (init : List (String × V)) (hf : ∀ nv ∈ l, p nv = false) :
    l.foldl (fun acc nv => if p nv then objSet acc nv.1 (f nv) else acc) init
      = init := by
  induction l generalizing init with
  | nil => rfl
  | cons hd tl ih =>
      have h0 := hf hd (by simp)
      simp only [List.foldl_cons, h0]
      exact ih init (fun nv h => hf nv (List.mem_cons_of_mem _ h))

/-- C9: with the store, context and whitelist fixed and every guard's
`validate` a pure function (which the embedding makes structural), two
successive calls to `generateTypeDefs` and to `generateResolvers` return
identical output — generation reads the store without mutating it. -/
theorem c9_generation_idempotent (Ctx Defn : Type) (b : SchemaBuilder Ctx Defn)
    (ctx : Ctx) (wl : Option (List String)) :
    generateTypeDefs b ctx wl = generateTypeDefs b ctx wl
      ∧ generateResolvers b ctx wl = generateResolvers b ctx wl :=
  ⟨rfl, rfl⟩

/-- C4: generating with a null/absent whitelist is exactly generating
with the list of all currently registered guard ids, and with that full
whitelist `determineRunnableGuards` drops no guard reference whose id is
registered — so every registered guard tagged on a fragment is subject
to evaluation. -/
theorem c4_null_whitelist_defaults_to_all_guard_ids (Ctx Defn : Type)
    (b : SchemaBuilder Ctx Defn) (ctx : Ctx) :
    generateTypeDefs b ctx none = generateTypeDefs b ctx (some (getGuardIds b))
      ∧ generateResolvers b ctx none
          = generateResolvers b ctx (some (getGuardIds b))
      ∧ ∀ refs : List String,
          (∀ g ∈ refs, (parseGuard g).id ∈ getGuardIds b) →
          determineRunnableGuards (.arr refs) (getGuardIds b) = refs := by
  refine ⟨rfl, rfl, fun refs h => ?_⟩
  simp only [determineRunnableGuards]
  exact List.filter_eq_self.mpr fun g hg => by
    simp [inGuardlist, List.contains, h g hg]

/-- Fixture with one registered guard (id "gt") that accepts every
context. -/
def c4Builder : SchemaBuilder Nat String :=
  registerGuards SchemaBuilder.new [⟨"gt", fun _ _ => true⟩]

/-- C4 witness: the hypotheses of the defaulting theorem hold at a
concrete one-guard builder, where the full whitelist keeps the tag. -/
theorem c4_null_whitelist_witness :
    determineRunnableGuards (.arr ["gt"]) (getGuardIds c4Builder) = ["gt"] :=
  (c4_null_whitelist_defaults_to_all_guard_ids Nat String c4Builder 0).2.2
    ["gt"] (by decide)

/-- Guard (id "g") that rejects every context, for the concrete C1
evaluation. -/
def alwaysFalseGuard : GuardInst Nat := ⟨"g", fun _ _ => false⟩

/-- Fixture: a no-group type-def fragment tagged with guard "g". -/
def c1NullBuilder : SchemaBuilder Nat String :=
  (addTypeDef (registerGuards SchemaBuilder.new [alwaysFalseGuard])
    "type Foo" (.arr ["g"]) .jnull).2

/-- Fixture: the same fragment registered under the query group. -/
def c1QueryBuilder : SchemaBuilder Nat String :=
  (addTypeDef (registerGuards SchemaBuilder.new [alwaysFalseGuard])
    "type Foo" (.arr ["g"]) (.str "query")).2

/-- C1: evaluation of the code at the failing input.  Guard "g" is
registered, rejects every context, and is excluded from the whitelist
`[]`.  A grouped fragment tagged "g" is included (the whitelist
intersection removes the guard before evaluation), but a no-group
fragment tagged "g" is dropped from `generateTypeDefs` — and a no-group
resolver likewise from `generateResolvers` — because the no-group paths
pass the raw guard list to `validateGuards`, never consulting the
whitelist.  This contradicts the claimed auto-pass for guards outside
the whitelist "in any group including the no-group bucket". -/
theorem c1_null_bucket_ignores_whitelist :
    generateTypeDefs c1NullBuilder 0 (some []) = ""
      ∧ generateTypeDefs c1QueryBuilder 0 (some [])
          = groupBlock "query" ["type Foo"]
      ∧ (generateResolvers
            (addResolver (registerGuards SchemaBuilder.new [alwaysFalseGuard])
              "Foo" "rdef" .jnull (.arr ["g"])).2 0 (some [])) = [] := by
  refine ⟨?_, ?_, ?_⟩ <;> rfl

/-- The element of the C3 failing input: definition "d", guards ["g"],
group "query". -/
def c3Input : TypeDefInput := ⟨"d", some ["g"], some "query"⟩

/-- C3: evaluation of the code at the failing input.  The bulk
`addTypeDefs` passes `(definition, group, guards)` to a singular form
whose parameters are `(typeDef, guards, group)`.  On the one-element
sequence `[{definition: "d", guards: ["g"], group: "query"}]` the
guards array lands in the group position: the call throws
InvalidGroup "g" (leaving a stray empty bucket keyed "g") and nothing
reaches the query bucket, while the spec's per-element delegation
succeeds and appends the fragment to the query bucket. -/
theorem c3_addTypeDefs_swaps_arguments :
    (addTypeDefs (SchemaBuilder.new : SchemaBuilder Nat String) [c3Input]).1
        = some (.invalidGroup "g")
      ∧ objGet (addTypeDefs (SchemaBuilder.new : SchemaBuilder Nat String)
          [c3Input]).2.typeDefs "query" = none
      ∧ objHas (addTypeDefs (SchemaBuilder.new : SchemaBuilder Nat String)
          [c3Input]).2.typeDefs "g" = true
      ∧ (addTypeDefsSpecDelegation (SchemaBuilder.new : SchemaBuilder Nat String)
          [c3Input]).1 = none
      ∧ objGet (addTypeDefsSpecDelegation
          (SchemaBuilder.new : SchemaBuilder Nat String) [c3Input]).2.typeDefs
          "query" = some [⟨"d", .arr ["g"]⟩] := by
  refine ⟨?_, ?_, ?_, ?_, ?_⟩ <;> decide

/-- C2 counterexample: the claim "the fragment store is left unchanged
by the failing call (no new bucket)" is false at a concrete input — a
failing `addTypeDef` with the invalid group "bogus" leaves a new empty
bucket keyed "bogus" in the type-def store. -/
theorem c2_invalid_group_counterexample :
    ¬ ((addTypeDef (SchemaBuilder.new : SchemaBuilder Nat String) "d"
          (.arr []) (.str "bogus")).2.typeDefs
        = (SchemaBuilder.new : SchemaBuilder Nat String).typeDefs) := by
  decide

/-- C2 (amended): an add-operation given a group outside
{query, mutation, subscription, null} raises InvalidGroup and adds no
fragment — the contents of every bucket are unchanged — but an empty
bucket keyed by the stringified group is left behind (created before
the validation), and the other store is untouched. -/
theorem c2_invalid_group_rejected_amended (Ctx Defn : Type)
    (b : SchemaBuilder Ctx Defn) (d : String) (gv : GuardsVal)
    (group : GroupVal) (name : String) (rdef : Defn)
    (hbad : validGroup group = false) :
    ((addTypeDef b d gv group).1 = some (.invalidGroup (groupKey group))
      ∧ (∀ k, (objGet (addTypeDef b d gv group).2.typeDefs k).getD []
            = (objGet b.typeDefs k).getD [])
      ∧ objHas (addTypeDef b d gv group).2.typeDefs (groupKey group) = true
      ∧ (addTypeDef b d gv group).2.resolvers = b.resolvers)
    ∧ ((addResolver b name rdef group gv).1
          = some (.invalidGroup (groupKey group))
      ∧ (∀ k, (objGet (addResolver b name rdef group gv).2.resolvers k).getD []
            = (objGet b.resolvers k).getD [])
      ∧ objHas (addResolver b name rdef group gv).2.resolvers
          (groupKey group) = true
      ∧ (addResolver b name rdef group gv).2.typeDefs = b.typeDefs) := by
  constructor
  · by_cases h : objHas b.typeDefs (groupKey group) = true
    · refine ⟨?_, ?_, ?_, ?_⟩ <;> simp [addTypeDef, hbad, h]
    · simp only [Bool.not_eq_true] at h
      refine ⟨?_, ?_, ?_, ?_⟩ <;> simp only [addTypeDef, hbad, h] <;>
        simp only [Bool.false_eq_true, if_false, if_true]
      · intro k
        by_cases hk : k = groupKey group
        · subst hk
          simp [objGet_objSet_self, objGet_eq_none_of_objHas_false _ _ h]
        · simp [objGet_objSet_ne _ _ _ _ (fun he => hk he.symm)]
      · simp [objHas_objSet_self]
  · by_cases h : objHas b.resolvers (groupKey group) = true
    · refine ⟨?_, ?_, ?_, ?_⟩ <;> simp [addResolver, hbad, h]
    · simp only [Bool.not_eq_true] at h
      refine ⟨?_, ?_, ?_, ?_⟩ <;> simp only [addResolver, hbad, h] <;>
        simp only [Bool.false_eq_true, if_false, if_true]
      · intro k
        by_cases hk : k = groupKey group
        · subst hk
          simp [objGet_objSet_self, objGet_eq_none_of_objHas_false _ _ h]
        · simp [objGet_objSet_ne _ _ _ _ (fun he => hk he.symm)]
      · simp [objHas_objSet_self]

/-- C2 witness: the amended theorem applied to the concrete invalid
group "bogus" on a fresh builder. -/
theorem c2_invalid_group_witness :
    (addTypeDef (SchemaBuilder.new : SchemaBuilder Nat String) "d" (.arr [])
        (.str "bogus")).1 = some (.invalidGroup "bogus") :=
  (c2_invalid_group_rejected_amended Nat String SchemaBuilder.new "d" (.arr [])
    (.str "bogus") "n" "r" (by decide)).1.1

/-- C5: a fragment with an empty guard list survives the guard filter on
every path — no-group and grouped, type defs and resolvers — for every
context and whitelist, so it is included in the generated output. -/
theorem c5_empty_guard_list_always_included (Ctx Defn : Type)
    (b : SchemaBuilder Ctx Defn) (ctx : Ctx) (wl : List String) (g : String)
    (td : SchemaBuilderItem String) (rv : String × SchemaBuilderItem Defn) :
    (td.guards = .arr [] → td ∈ (objGet b.typeDefs "null").getD [] →
        td.definition ∈ survivingNullTypeDefs b ctx)
    ∧ (td.guards = .arr [] → td ∈ (objGet b.typeDefs g).getD [] →
        td.definition ∈ survivingGroupTypeDefs b ctx wl g)
    ∧ (rv.2.guards = .arr [] → rv ∈ (objGet b.resolvers "null").getD [] →
        objHas (survivingNullResolvers b ctx) rv.1 = true)
    ∧ (rv.2.guards = .arr [] → rv ∈ (objGet b.resolvers g).getD [] →
        objHas (survivingGroupResolvers b ctx wl g) rv.1 = true) := by
  refine ⟨fun hg hmem => ?_, fun hg hmem => ?_, fun hg hmem => ?_,
    fun hg hmem => ?_⟩
  · simp only [survivingNullTypeDefs]
    exact List.mem_filterMap.mpr ⟨td, hmem,
      by simp [typeDefPassesNull, hg, forOfGuards, validateGuards, exceptOk]⟩
  · simp only [survivingGroupTypeDefs]
    exact List.mem_filterMap.mpr ⟨td, hmem,
      by simp [typeDefPassesGroup, hg, determineRunnableGuards, validateGuards,
        exceptOk]⟩
  · simp only [survivingNullResolvers]
    exact foldl_objSet_has_of_mem _ _ _ _ rv.1 rv.2 (by simpa using hmem)
      (by simp [resolverPassesNull, hg, forOfGuards, validateGuards, exceptOk])
  · simp only [survivingGroupResolvers]
    exact foldl_objSet_has_of_mem _ _ _ _ rv.1 rv.2 (by simpa using hmem)
      (by simp [resolverPassesGroup, hg, determineRunnableGuards,
        validateGuards, exceptOk])

/-- Fixture with one guard-free fragment in each of the four stores
(no-group type def, query type def, no-group resolver, query
resolver). -/
def c5Builder : SchemaBuilder Nat String :=
  (addResolver
    (addResolver
      (addTypeDef (addTypeDef SchemaBuilder.new "t0" (.arr []) .jnull).2
        "tq" (.arr []) (.str "query")).2
      "r0" "d0" .jnull (.arr [])).2
    "rq" "dq" (.str "query") (.arr [])).2

/-- C5 witness: each of the four guard-free fixture fragments survives
with an empty whitelist and an arbitrary context. -/
theorem c5_empty_guards_witness :
    "t0" ∈ survivingNullTypeDefs c5Builder 0
    ∧ "tq" ∈ survivingGroupTypeDefs c5Builder 0 [] "query"
    ∧ objHas (survivingNullResolvers c5Builder 0) "r0" = true
    ∧ objHas (survivingGroupResolvers c5Builder 0 [] "query") "rq" = true :=
  ⟨(c5_empty_guard_list_always_included Nat String c5Builder 0 [] "query"
      ⟨"t0", .arr []⟩
      (("r0", ⟨"d0", .arr []⟩) : String × SchemaBuilderItem String)).1
      rfl (by decide),
   (c5_empty_guard_list_always_included Nat String c5Builder 0 [] "query"
      ⟨"tq", .arr []⟩
      (("r0", ⟨"d0", .arr []⟩) : String × SchemaBuilderItem String)).2.1
      rfl (by decide),
   (c5_empty_guard_list_always_included Nat String c5Builder 0 [] "query"
      ⟨"t0", .arr []⟩
      (("r0", ⟨"d0", .arr []⟩) : String × SchemaBuilderItem String)).2.2.1
      rfl (by decide),
   (c5_empty_guard_list_always_included Nat String c5Builder 0 [] "query"
      ⟨"t0", .arr []⟩
      (("rq", ⟨"dq", .arr []⟩) : String × SchemaBuilderItem String)).2.2.2
      rfl (by decide)⟩

/-- C6: a grouped fragment tagged `[g1, g2]`, both registered and both in
the whitelist, passes the filter iff `g1.validate(ctx) AND
g2.validate(ctx)`; and when `g1` fails, the run stops at the GuardError
for `g1` — the result does not depend on `inst2.validate`, which is an
arbitrary function here, so the second guard is never consulted. -/
theorem c6_two_guards_conjunction_and_short_circuit (Ctx Defn : Type)
    (b : SchemaBuilder Ctx Defn) (ctx : Ctx) (wl : List String)
    (g1 g2 : String) (inst1 inst2 : GuardInst Ctx) (d : String) (rd : Defn)
    (h1 : objGet b.guardInstances (parseGuard g1).id = some inst1)
    (h2 : objGet b.guardInstances (parseGuard g2).id = some inst2)
    (hw1 : inGuardlist g1 wl = true) (hw2 : inGuardlist g2 wl = true) :
    (typeDefPassesGroup b ctx wl ⟨d, .arr [g1, g2]⟩
        = (inst1.validate ctx (parseGuard g1).extras
            && inst2.validate ctx (parseGuard g2).extras))
    ∧ (resolverPassesGroup b ctx wl ⟨rd, .arr [g1, g2]⟩
        = (inst1.validate ctx (parseGuard g1).extras
            && inst2.validate ctx (parseGuard g2).extras))
    ∧ (inst1.validate ctx (parseGuard g1).extras = false →
        validateGuards b (determineRunnableGuards (.arr [g1, g2]) wl) ctx
          = .error (.guardError (parseGuard g1).id (parseGuard g1).extras)) := by
  have hd : determineRunnableGuards (.arr [g1, g2]) wl = [g1, g2] := by
    simp [determineRunnableGuards, hw1, hw2]
  refine ⟨?_, ?_, fun hv1 => ?_⟩
  · simp only [typeDefPassesGroup, hd]
    cases hv1 : inst1.validate ctx (parseGuard g1).extras
    · simp [validateGuards, h1, hv1, exceptOk]
    · cases hv2 : inst2.validate ctx (parseGuard g2).extras <;>
        simp [validateGuards, h1, h2, hv1, hv2, exceptOk]
  · simp only [resolverPassesGroup, hd]
    cases hv1 : inst1.validate ctx (parseGuard g1).extras
    · simp [validateGuards, h1, hv1, exceptOk]
    · cases hv2 : inst2.validate ctx (parseGuard g2).extras <;>
        simp [validateGuards, h1, h2, hv1, hv2, exceptOk]
  · simp [hd, validateGuards, h1, hv1]

/-- Guard (id "gf") rejecting every context, for the C6 fixture. -/
def c6FalseGuard : GuardInst Nat := ⟨"gf", fun _ _ => false⟩

/-- Guard (id "gt") accepting every context, for the C6 fixture. -/
def c6TrueGuard : GuardInst Nat := ⟨"gt", fun _ _ => true⟩

/-- Fixture with the two C6 guards registered. -/
def c6Builder : SchemaBuilder Nat String :=
  registerGuards SchemaBuilder.new [c6FalseGuard, c6TrueGuard]

/-- C6 witness: with the failing guard first, the fragment's pass bit is
the conjunction (false) and validation stops at the GuardError for
"gf". -/
theorem c6_two_guards_witness :
    typeDefPassesGroup c6Builder 7 ["gf", "gt"]
        ⟨"d", .arr ["gf", "gt"]⟩
      = (c6FalseGuard.validate 7 (parseGuard "gf").extras
          && c6TrueGuard.validate 7 (parseGuard "gt").extras)
    ∧ validateGuards c6Builder
        (determineRunnableGuards (.arr ["gf", "gt"]) ["gf", "gt"]) 7
      = .error (.guardError (parseGuard "gf").id (parseGuard "gf").extras) :=
  have h := c6_two_guards_conjunction_and_short_circuit Nat String c6Builder 7
    ["gf", "gt"] "gf" "gt" c6FalseGuard c6TrueGuard "d" "rdefn"
    rfl rfl (by decide) (by decide)
  ⟨h.1, h.2.2 rfl⟩

/-- C7: adding a resolver under a name already present in the same group
fails with DuplicateResolver and leaves the whole store untouched (no
overwrite), while the same name under a different valid group where it
is still free succeeds and inserts the fragment. -/
theorem c7_duplicate_resolver_same_group_only (Ctx Defn : Type)
    (b : SchemaBuilder Ctx Defn) (name : String) (d1 d2 : Defn)
    (gv1 gv2 : GuardsVal) (group1 group2 : GroupVal)
    (hval1 : validGroup group1 = true)
    (hval2 : validGroup group2 = true)
    ( _hne : groupKey group2 ≠ groupKey group1)
    (hdup : (objGet ((objGet b.resolvers (groupKey group1)).getD []) name).isSome
        = true)
    (hfree : objGet ((objGet b.resolvers (groupKey group2)).getD []) name
        = none) :
    addResolver b name d1 group1 gv1 = (some (.duplicateResolver name), b)
    ∧ (addResolver b name d2 group2 gv2).1 = none
    ∧ objGet ((objGet (addResolver b name d2 group2 gv2).2.resolvers
          (groupKey group2)).getD []) name = some ⟨d2, gv2⟩ := by
  have hbuck : objHas b.resolvers (groupKey group1) = true := by
    rcases hbg : objGet b.resolvers (groupKey group1) with _ | bucket
    · rw [hbg] at hdup
      simp [objGet] at hdup
    · simp [objHas, hbg]
  refine ⟨?_, ?_, ?_⟩
  · simp [addResolver, hbuck, hval1, hdup]
  · by_cases hhas : objHas b.resolvers (groupKey group2) = true
    · simp [addResolver, hhas, hval2, hfree]
    · simp only [Bool.not_eq_true] at hhas
      simp [addResolver, hhas, hval2, objGet_objSet_self, objGet]
  · by_cases hhas : objHas b.resolvers (groupKey group2) = true
    · simp [addResolver, hhas, hval2, hfree, objGet_objSet_self]
    · simp only [Bool.not_eq_true] at hhas
      simp [addResolver, hhas, hval2, objGet_objSet_self, objGet]

/-- Fixture with resolver name "n" registered in the query group. -/
def c7Builder : SchemaBuilder Nat String :=
  (addResolver SchemaBuilder.new "n" "d" (.str "query") (.arr [])).2

/-- C7 witness: re-adding "n" to the query group fails with the state
unchanged; adding "n" to the mutation group inserts it. -/
theorem c7_duplicate_resolver_witness :
    addResolver c7Builder "n" "x" (.str "query") (.arr [])
        = (some (.duplicateResolver "n"), c7Builder)
    ∧ objGet ((objGet (addResolver c7Builder "n" "y" (.str "mutation")
          (.arr [])).2.resolvers "mutation").getD []) "n"
        = some ⟨"y", .arr []⟩ :=
  have h := c7_duplicate_resolver_same_group_only Nat String c7Builder "n"
    "x" "y" (.arr []) (.arr []) (.str "query") (.str "mutation")
    (by decide) (by decide) (by decide) (by decide) (by decide)
  ⟨h.1, h.2.2⟩

/-- A group whose resolver bucket is absent contributes nothing to the
output of `generateResolvers`. -/
theorem groupResolverStep_absent (Ctx Defn : Type) (b : SchemaBuilder Ctx Defn)
    (ctx : Ctx) (wl : List String) (acc : List (String × ResolverOut Defn))
    (g : String) (h : objGet b.resolvers g = none) :
    groupResolverStep b ctx wl acc g = acc := by
  simp [groupResolverStep, h]

/-- A group's emission step does not affect presence of other keys. -/
theorem groupResolverStep_objHas_ne (Ctx Defn : Type)
    (b : SchemaBuilder Ctx Defn) (ctx : Ctx) (wl : List String)
    (acc : List (String × ResolverOut Defn)) (g K : String)
    (h : K ≠ startCase g) :
    objHas (groupResolverStep b ctx wl acc g) K = objHas acc K := by
  rcases hx : objGet b.resolvers g with _ | bucket <;>
    simp [groupResolverStep, hx, objHas_objSet_ne _ _ _ _ (fun he => h he.symm)]

/-- A group's emission step does not affect reads of other keys. -/
theorem groupResolverStep_objGet_ne (Ctx Defn : Type)
    (b : SchemaBuilder Ctx Defn) (ctx : Ctx) (wl : List String)
    (acc : List (String × ResolverOut Defn)) (g K : String)
    (h : K ≠ startCase g) :
    objGet (groupResolverStep b ctx wl acc g) K = objGet acc K := by
  rcases hx : objGet b.resolvers g with _ | bucket <;>
    simp [groupResolverStep, hx, objGet_objSet_ne _ _ _ _ (fun he => h he.symm)]

/-- A group with a present bucket is emitted under its capitalized key,
bound to its surviving entries. -/
theorem groupResolverStep_objGet_self (Ctx Defn : Type)
    (b : SchemaBuilder Ctx Defn) (ctx : Ctx) (wl : List String)
    (acc : List (String × ResolverOut Defn)) (g : String)
    (bucket : List (String × SchemaBuilderItem Defn))
    (h : objGet b.resolvers g = some bucket) :
    objGet (groupResolverStep b ctx wl acc g) (startCase g)
      = some (.group (survivingGroupResolvers b ctx wl g)) := by
  simp [groupResolverStep, h, objGet_objSet_self]

/-- C8: in `generateResolvers`, an entrypoint group with no bucket (no
resolver was ever registered for it) produces no key at all (given that
no surviving no-group resolver happens to be named like the capitalized
group), while a group with a bucket whose fragments are all filtered out
is emitted as the capitalized key bound to an empty nested mapping. -/
theorem c8_group_present_vs_absent_asymmetry (Ctx Defn : Type)
    (b : SchemaBuilder Ctx Defn) (ctx : Ctx) (gwl : Option (List String))
    (g : String) (hg : g ∈ entrypoints) :
    (objGet b.resolvers g = none →
      objHas (survivingNullResolvers b ctx) (startCase g) = false →
      objHas (generateResolvers b ctx gwl) (startCase g) = false)
    ∧ (∀ bucket, objGet b.resolvers g = some bucket →
        (∀ nv ∈ bucket,
          resolverPassesGroup b ctx (gwl.getD (getGuardIds b)) nv.2 = false) →
        objGet (generateResolvers b ctx gwl) (startCase g)
          = some (.group [])) := by
  have hqm : startCase "query" ≠ startCase "mutation" := by decide
  have hqs : startCase "query" ≠ startCase "subscription" := by decide
  have hmq : startCase "mutation" ≠ startCase "query" := by decide
  have hms : startCase "mutation" ≠ startCase "subscription" := by decide
  have hsq : startCase "subscription" ≠ startCase "query" := by decide
  have hsm : startCase "subscription" ≠ startCase "mutation" := by decide
  have hbase : ∀ K, objHas
      ((survivingNullResolvers b ctx).map
        (fun nv => (nv.1, ResolverOut.leaf nv.2))) K
      = objHas (survivingNullResolvers b ctx) K :=
    fun K => objHas_map (survivingNullResolvers b ctx) ResolverOut.leaf K
  have hgen : generateResolvers b ctx gwl
      = groupResolverStep b ctx (gwl.getD (getGuardIds b))
          (groupResolverStep b ctx (gwl.getD (getGuardIds b))
            (groupResolverStep b ctx (gwl.getD (getGuardIds b))
              ((survivingNullResolvers b ctx).map
                (fun nv => (nv.1, ResolverOut.leaf nv.2)))
              "query")
            "mutation")
          "subscription" := by
    simp [generateResolvers, entrypoints]
  simp only [entrypoints, List.mem_cons, List.mem_singleton,
    List.not_mem_nil, or_false] at hg
  constructor
  · intro habs hnc
    rcases hg with hg | hg | hg <;> subst hg <;> rw [hgen]
    · rw [groupResolverStep_objHas_ne _ _ _ _ _ _ _ _ hqs,
        groupResolverStep_objHas_ne _ _ _ _ _ _ _ _ hqm,
        groupResolverStep_absent _ _ _ _ _ _ _ habs, hbase]
      exact hnc
    · rw [groupResolverStep_objHas_ne _ _ _ _ _ _ _ _ hms,
        groupResolverStep_absent _ _ _ _ _ _ _ habs,
        groupResolverStep_objHas_ne _ _ _ _ _ _ _ _ hmq, hbase]
      exact hnc
    · rw [groupResolverStep_absent _ _ _ _ _ _ _ habs,
        groupResolverStep_objHas_ne _ _ _ _ _ _ _ _ hsm,
        groupResolverStep_objHas_ne _ _ _ _ _ _ _ _ hsq, hbase]
      exact hnc
  · intro bucket hpres hfail
    have hempty : survivingGroupResolvers b ctx (gwl.getD (getGuardIds b)) g
        = [] := by
      simp only [survivingGroupResolvers, hpres, Option.getD_some]
      exact foldl_objSet_all_fail _ _ bucket [] hfail
    rcases hg with hg | hg | hg <;> subst hg <;> rw [hgen]
    · rw [groupResolverStep_objGet_ne _ _ _ _ _ _ _ _ hqs,
        groupResolverStep_objGet_ne _ _ _ _ _ _ _ _ hqm,
        groupResolverStep_objGet_self _ _ _ _ _ _ _ bucket hpres, hempty]
    · rw [groupResolverStep_objGet_ne _ _ _ _ _ _ _ _ hms,
        groupResolverStep_objGet_self _ _ _ _ _ _ _ bucket hpres, hempty]
    · rw [groupResolverStep_objGet_self _ _ _ _ _ _ _ bucket hpres, hempty]

/-- Guard (id "gf") rejecting every context, for the C8 fixture. -/
def c8FalseGuard : GuardInst Nat := ⟨"gf", fun _ _ => false⟩

/-- Fixture: one query resolver guarded by the always-false guard, no
mutation resolvers at all. -/
def c8Builder : SchemaBuilder Nat String :=
  (addResolver (registerGuards SchemaBuilder.new [c8FalseGuard])
    "rq" "d" (.str "query") (.arr ["gf"])).2

/-- C8 witness: the fixture emits no Mutation key (bucket absent) but
emits a Query key bound to an empty mapping (bucket present, its one
fragment filtered out by the failing guard). -/
theorem c8_group_asymmetry_witness :
    objHas (generateResolvers c8Builder 0 none) (startCase "mutation") = false
    ∧ objGet (generateResolvers c8Builder 0 none) (startCase "query")
        = some (.group []) :=
  ⟨(c8_group_present_vs_absent_asymmetry Nat String c8Builder 0 none
      "mutation" (by decide)).1 (by decide) (by decide),
   (c8_group_present_vs_absent_asymmetry Nat String c8Builder 0 none
      "query" (by decide)).2 [("rq", ⟨"d", .arr ["gf"]⟩)]
      (by decide) (by decide)⟩

/-- C10: `addEntrypoint` on a name already taken in the group's resolver
mapping propagates the DuplicateResolver error of its second step, yet
the type-def fragment appended by its first step stays in the group's
type-def sequence (no rollback), and — when its guards pass — its
definition appears among the group's surviving type defs in subsequent
generation. -/
theorem c10_addEntrypoint_duplicate_no_rollback (Ctx Defn : Type)
    (b : SchemaBuilder Ctx Defn) (ctx : Ctx) (wl : List String)
    (name g td : String) (res : Defn) (gv : GuardsVal)
    (hg : g ∈ entrypoints)
    (hdup : (objGet ((objGet b.resolvers g).getD []) name).isSome = true) :
    (addEntrypoint b name (.str g) td res gv).1
        = some (.duplicateResolver name)
    ∧ objGet (addEntrypoint b name (.str g) td res gv).2.typeDefs g
        = some ((objGet b.typeDefs g).getD [] ++ [⟨td, gv⟩])
    ∧ (typeDefPassesGroup (addEntrypoint b name (.str g) td res gv).2 ctx wl
          (⟨td, gv⟩ : SchemaBuilderItem String) = true →
        td ∈ survivingGroupTypeDefs
          (addEntrypoint b name (.str g) td res gv).2 ctx wl g) := by
  have hval : validGroup (.str g) = true := by
    simp [validGroup, List.contains, hg]
  have hA1 : (addTypeDef b td gv (.str g)).1 = none := by
    by_cases hhas : objHas b.typeDefs g = true
    · simp [addTypeDef, hval, hhas, groupKey]
    · simp only [Bool.not_eq_true] at hhas
      simp [addTypeDef, hval, hhas, groupKey]
  have hA2 : objGet (addTypeDef b td gv (.str g)).2.typeDefs g
      = some ((objGet b.typeDefs g).getD [] ++ [⟨td, gv⟩]) := by
    by_cases hhas : objHas b.typeDefs g = true
    · simp [addTypeDef, hval, hhas, groupKey, objGet_objSet_self]
    · simp only [Bool.not_eq_true] at hhas
      simp [addTypeDef, hval, hhas, groupKey, objGet_objSet_self,
        objGet_eq_none_of_objHas_false _ _ hhas]
  have hA3 : (addTypeDef b td gv (.str g)).2.resolvers = b.resolvers := by
    by_cases hhas : objHas b.typeDefs g = true
    · simp [addTypeDef, hval, hhas, groupKey]
    · simp only [Bool.not_eq_true] at hhas
      simp [addTypeDef, hval, hhas, groupKey]
  rcases hE : addTypeDef b td gv (.str g) with ⟨e, b2⟩
  rw [hE] at hA1 hA2 hA3
  simp only at hA1 hA2 hA3
  subst hA1
  have hR : addResolver b2 name res (.str g) gv
      = (some (.duplicateResolver name), b2) := by
    have hbuck : objHas b2.resolvers g = true := by
      rw [hA3]
      rcases hbg : objGet b.resolvers g with _ | bucket
      · rw [hbg] at hdup
        simp [objGet] at hdup
      · simp [objHas, hbg]
    rw [hA3] at hbuck
    simp [addResolver, groupKey, hA3, hbuck, hval, hdup]
  have hfull : addEntrypoint b name (.str g) td res gv
      = (some (.duplicateResolver name), b2) := by
    simp only [addEntrypoint, hE, hR]
  refine ⟨by simp [hfull], by simp [hfull, hA2], fun hpass => ?_⟩
  rw [hfull] at hpass ⊢
  simp only [survivingGroupTypeDefs, hA2, Option.getD_some,
    List.filterMap_append]
  simp only at hpass
  apply List.mem_append_right
  simp [hpass]

/-- Fixture: resolver name "n" already present in the query group. -/
def c10Builder : SchemaBuilder Nat String :=
  (addResolver SchemaBuilder.new "n" "r0" (.str "query") (.arr [])).2

/-- C10 witness: the failing `addEntrypoint` reports the duplicate, and
the guard-free type def it half-committed survives generation. -/
theorem c10_no_rollback_witness :
    (addEntrypoint c10Builder "n" (.str "query") "td" "r1" (.arr [])).1
        = some (.duplicateResolver "n")
    ∧ "td" ∈ survivingGroupTypeDefs
        (addEntrypoint c10Builder "n" (.str "query") "td" "r1" (.arr [])).2
        0 [] "query" :=
  have h := c10_addEntrypoint_duplicate_no_rollback Nat String c10Builder 0 []
    "n" "query" "td" "r1" (.arr []) (by decide) (by decide)
  ⟨h.1, h.2.2 (by decide)⟩
